import Mathlib

set_option maxRecDepth 40000

/-!
Verification of the Places sensor (`custom_components/places/sensor.py`).

Shallow embedding of the pure core of the sensor: Python string operations
are reimplemented over `List Char` (the source data is ASCII), Python
`dict`-backed attribute stores become `String → Option _` maps with the
source's "blank is absent" semantics, fallible Python code (paths that
raise `IndexError`/`TypeError`/`AttributeError`) returns `Except Unit _`,
and the recursive advanced-option interpreter takes an explicit fuel
argument (the source recursion always shrinks the remaining option string,
so `length + 1` fuel is exact).
-/

namespace Places

/-! ## Python string primitives (ASCII semantics, as used by the source) -/

/-- Python `str.strip()` (ASCII whitespace, which is all the source data uses). -/
def pyStrip (s : String) : String :=
  ⟨((s.data.dropWhile Char.isWhitespace).reverse.dropWhile Char.isWhitespace).reverse⟩

/-- Python `str.lower()` on ASCII data. -/
def pyLower (s : String) : String := ⟨s.data.map Char.toLower⟩

/-- Python `s.count(c)` for a single-character needle. -/
def pyCountChar (s : String) (c : Char) : Nat := s.data.count c

/-- Python `c in s` for a single character. -/
def pyContainsChar (s : String) (c : Char) : Bool := s.data.contains c

/-- Python `s.find(c)` for a single character: index of first occurrence, `none` for -1. -/
def pyFindChar (s : String) (c : Char) : Option Nat :=
  go s.data 0
where
  go : List Char → Nat → Option Nat
    | [], _ => none
    | x :: xs, i => if x = c then some i else go xs (i + 1)

/-- Python `s[:n]` (n ≥ 0). -/
def pySliceTo (s : String) (n : Nat) : String := ⟨s.data.take n⟩

/-- Python `s[n:]` (n ≥ 0). -/
def pySliceFrom (s : String) (n : Nat) : String := ⟨s.data.drop n⟩

/-- Python `s[a:b]` (0 ≤ a, b). -/
def pySlice (s : String) (a b : Nat) : String := ⟨(s.data.take b).drop a⟩

/-- Python `s.split(c)` for a one-character separator (keeps empty pieces). -/
def pySplitChar (s : String) (c : Char) : List String :=
  go s.data []
where
  go : List Char → List Char → List String
    | [], acc => [⟨acc.reverse⟩]
    | x :: xs, acc => if x = c then ⟨acc.reverse⟩ :: go xs [] else go xs (x :: acc)

/-- Python `s.startswith(p)`. -/
def pyStartsWith (s p : String) : Bool := p.data.isPrefixOf s.data

/-- Python `s.endswith(p)`. -/
def pyEndsWith (s p : String) : Bool := p.data.isSuffixOf s.data

/-- Python `str.replace` over char lists: leftmost, non-overlapping, with
structural fuel (one list element is consumed per step, so `l.length` fuel
is enough). The source only calls it with non-empty patterns
(`" Township"`, `" "`); for an empty pattern this returns the string
unchanged. -/
def pyReplaceLGo (pat rep : List Char) : Nat → List Char → List Char
  | 0, l => l
  | _ + 1, [] => []
  | fuel + 1, c :: rest =>
    if pat ≠ [] ∧ pat.isPrefixOf (c :: rest) then
      rep ++ pyReplaceLGo pat rep fuel (rest.drop (pat.length - 1))
    else
      c :: pyReplaceLGo pat rep fuel rest

/-- Python `str.replace` over char lists (all occurrences, left to right). -/
def pyReplaceL (pat rep l : List Char) : List Char := pyReplaceLGo pat rep l.length l

/-- Python `s.replace(pat, rep)` (all occurrences, left to right). -/
def pyReplace (s pat rep : String) : String := ⟨pyReplaceL pat.data rep.data s.data⟩

/-- Python `str.title()` on ASCII data: a letter is upper-cased when the
previous character is not a letter, lower-cased otherwise. -/
def pyTitle (s : String) : String :=
  ⟨go false s.data⟩
where
  go : Bool → List Char → List Char
    | _, [] => []
    | prevAlpha, c :: rest =>
      (if c.isAlpha then (if prevAlpha then c.toLower else c.toUpper) else c)
        :: go c.isAlpha rest

/-- Python `"x" in s` for a multi-character needle. -/
def pyHasSub (s pat : String) : Bool :=
  go pat.data s.data
where
  go (p : List Char) : List Char → Bool
    | [] => p.isPrefixOf []
    | c :: rest => p.isPrefixOf (c :: rest) || go p rest

/-- Python `int()` on a float/rational: truncation toward zero. -/
def pyIntTrunc (q : ℚ) : ℤ := if 0 ≤ q then ⌊q⌋ else ⌈q⌉

/-- Python `"%02d" % n`. -/
def pyFmt02 (n : Nat) : String := if n < 10 then "0" ++ Nat.repr n else Nat.repr n

/-- Python `"%02d:%02d" % (hour, minute)` (`current_time` in `do_update`). -/
def pyFmtTime (hour minute : Nat) : String := pyFmt02 hour ++ ":" ++ pyFmt02 minute

/-! ## MovementGate

`get_gps_accuracy` (sensor.py:1122-1172) and `determine_if_update_needed`
(sensor.py:917-964). The update codes are the source's literals:
0 = skip silently, 1 = proceed, 2 = skip but set direction of travel to
stationary. -/

/-- sensor.py:1153-1172: the decision part of `get_gps_accuracy`, given the
stored `ATTR_GPS_ACCURACY` value (`none` = attribute blank/absent; a stored
numeric 0 is NOT blank because `is_attr_blank` special-cases `value == 0`)
and the `CONF_USE_GPS` flag. -/
def get_gps_accuracy_gate (acc : Option ℚ) (useGps : Bool) : Nat :=
  match acc with
  | some q => if useGps = true ∧ q = 0 then 0 else 1
  | none => 1

/-- sensor.py:917-964 `determine_if_update_needed`: `initial` is
`ATTR_INITIAL_UPDATE`, the locations are `get_attr` results (blank → `none`),
`distM` is the stored `ATTR_DISTANCE_TRAVELED_M`. -/
def determine_if_update_needed (initial : Bool) (locCur locPrev : Option String)
    (distM : ℚ) : Nat :=
  if initial then 1
  else if locCur = locPrev then 2
  else if pyIntTrunc distM < 10 then 2
  else 1

/-! ## Attribute store for the display-options interpreter

The source keeps everything in `self._internal_attr`, a `dict`. The
display-options code only reads string-valued attributes, so here the store
is `String → Option String` with the source's blank semantics
(`is_attr_blank`, sensor.py:783-787: blank iff absent or falsy and not the
number 0; for a string value that is "absent or empty"). -/

/-- An attribute store restricted to the string-valued attributes the
display-options interpreter reads. -/
def AttrStore : Type := String → Option String

/-- `is_attr_blank` (sensor.py:783-787) for a string-valued attribute,
lifted to an optional key (the source calls it with
`DISPLAY_OPTIONS_MAP.get(attr)`, which can be `None`; `dict.get(None)` is
`None`, hence blank). -/
def attrBlank (store : AttrStore) (key : Option String) : Bool :=
  match key with
  | none => true
  | some k =>
    match store k with
    | none => true
    | some v => v = ""

/-- `get_attr` (sensor.py:669-673) with default `None`: `None` when blank,
the stored value otherwise; lifted to an optional key like `attrBlank`. -/
def getAttrOpt (store : AttrStore) (key : Option String) : Option String :=
  match key with
  | none => none
  | some k =>
    match store k with
    | none => none
    | some v => if v = "" then none else some v

/-! ## Advanced display options: attribute-name table -/

def ATTR_DEVICETRACKER_ZONE_NAME : String := "devicetracker_zone_name"
def ATTR_PLACE_TYPE : String := "place_type"
def ATTR_PLACE_CATEGORY : String := "place_category"
def ATTR_STREET : String := "street"
def ATTR_STREET_REF : String := "street_ref"
def ATTR_STREET_NUMBER : String := "street_number"

/-- Modelled from the spec: the option-name → attribute-key table
`DISPLAY_OPTIONS_MAP` is imported by sensor.py from the integration's
`const.py`, which is not under `src/`. The entries here are the option
tokens the spec names (§4.3.1 simple-template tokens, §4.3.2 step 1/6/7:
a static name→field table; title-cased fields zone name / place type /
place category; positional recording for street, street-reference and
street-number). Only the association option-name ↦ attribute-key matters;
the literal attribute-key strings are arbitrary distinct tags. -/
def DISPLAY_OPTIONS_MAP : List (String × String) :=
  [("zone", "devicetracker_zone"),
   ("zone_name", ATTR_DEVICETRACKER_ZONE_NAME),
   ("place_name", "place_name"),
   ("place_category", ATTR_PLACE_CATEGORY),
   ("place_type", ATTR_PLACE_TYPE),
   ("neighbourhood", "place_neighbourhood"),
   ("street_number", ATTR_STREET_NUMBER),
   ("street", ATTR_STREET),
   ("street_ref", ATTR_STREET_REF),
   ("city", "city"),
   ("city_clean", "city_clean"),
   ("postal_town", "postal_town"),
   ("county", "county"),
   ("state", "region"),
   ("region", "region"),
   ("state_abbr", "state_abbr"),
   ("country", "country"),
   ("postal_code", "postal_code"),
   ("formatted_address", "formatted_address"),
   ("driving", "driving"),
   ("name", "place_name"),
   ("name_no_dupe", "place_name_no_dupe")]

/-! ## Advanced display options: interpreter state -/

/-- The mutable interpreter fields of the sensor object
(`self.adv_options_state_list`, `self.street_i`, `self.street_num_i`,
`self.temp_i`). -/
structure Interp where
  stateList : List String
  street_i : Int
  street_num_i : Int
  temp_i : Int
deriving DecidableEq, Repr

/-- sensor.py:2791-2796: the reset of every mutable interpreter field done
in `do_update` before `build_from_advanced_options` runs. -/
def resetInterpFrom (_prior : Interp) : Interp :=
  { stateList := [], street_num_i := -1, street_i := -1, temp_i := 0 }

/-- Append a resolved state to `adv_options_state_list`. -/
def pushState (v : String) (st : Interp) : Interp :=
  { st with stateList := st.stateList ++ [v] }

/-! ## `get_option_state` (sensor.py:2005-2119) -/

/-- sensor.py:2005-2119 `get_option_state`. Returns the resolved value
(`none` for Python `None`) and the updated interpreter fields. Note the
source increments `temp_i` (and records street indices) whenever the final
`out` is non-`None`, even if it strips to the empty string; the caller is
responsible for the truthiness check before appending. -/
def get_option_state (store : AttrStore) (opt0 : String) (incl excl : List String)
    (incl_attr excl_attr : List (String × List String)) (st : Interp) :
    Option String × Interp :=
  let opt := if opt0 ≠ "" then pyStrip (pyLower opt0) else opt0
  let key? := List.lookup opt DISPLAY_OPTIONS_MAP
  match getAttrOpt store key? with
  | none => (none, st)
  | some out1 =>
    let o1 : Option String :=
      if incl ≠ [] ∧ out1 ∉ incl then none
      else if excl ≠ [] ∧ out1 ∈ excl then none
      else some out1
    let o2 : Option String :=
      if incl_attr.all (fun p =>
          match getAttrOpt store (List.lookup p.1 DISPLAY_OPTIONS_MAP) with
          | none => false
          | some v => v ∈ p.2) then o1 else none
    let o3 : Option String :=
      if excl_attr.all (fun p =>
          match getAttrOpt store (List.lookup p.1 DISPLAY_OPTIONS_MAP) with
          | none => true
          | some v => v ∉ p.2) then o2 else none
    match o3 with
    | none => (none, st)
    | some out2 =>
      let isTitleKey := key? = some ATTR_DEVICETRACKER_ZONE_NAME ∨
        key? = some ATTR_PLACE_TYPE ∨ key? = some ATTR_PLACE_CATEGORY
      let out3 := if out2 = pyLower out2 ∧ isTitleKey then pyTitle out2 else out2
      let out4 := pyStrip out3
      let st1 := if key? = some ATTR_STREET ∨ key? = some ATTR_STREET_REF then
          { st with street_i := st.temp_i } else st
      let st2 := if key? = some ATTR_STREET_NUMBER then
          { st1 with street_num_i := st1.temp_i } else st1
      (some out4, { st2 with temp_i := st2.temp_i + 1 })

/-! ## `parse_parens` (sensor.py:1820-1951) -/

/-- The result tuple of `parse_parens`:
`(incl, excl, incl_attr, excl_attr, next_opt)`. -/
def ParensOut : Type :=
  List String × List String × List (String × List String) ×
    List (String × List String) × String

/-- The character scan of sensor.py:1837-1847: walks the paren body with a
nesting counter starting at 1, collecting the depth-1 comma/close-paren
separated items, and stops at the matching close paren. Returns
`(incl_excl_list, close_paren_num, paren_count)`; `close_paren_num` stays 0
when no matching close paren is found. -/
def parensScanGo (full : List Char) : List Char → Nat → Nat → Nat → List String →
    (List String × Nat × Nat)
  | [], _, count, _, items => (items, 0, count)
  | c :: rest, i, count, start, items =>
    let itemsStart :=
      if (c = ',' ∨ c = ')') ∧ count = 1 then
        (items ++ [pyStrip ⟨(full.take i).drop start⟩], i + 1)
      else (items, start)
    let count' := if c = '(' then count + 1 else if c = ')' then count - 1 else count
    if count' = 0 then (itemsStart.1, i, 0)
    else parensScanGo full rest (i + 1) count' itemsStart.2 itemsStart.1

/-- sensor.py:1893-1931: handling of one parenthesis item that itself holds
a nested `(`: an attribute-scoped filter `attr(+v1,v2)` / `attr(-v1,v2)`.
Returns the updated `(incl_attr, excl_attr)` maps, or the same maps when
the item is malformed (logged and skipped in the source). -/
def parseAttrItem (item : String)
    (incl_attr excl_attr : List (String × List String)) :
    List (String × List String) × List (String × List String) :=
  if ¬ pyContainsChar item ')' ∨ pyCountChar item '(' > 1 ∨ pyCountChar item ')' > 1 then
    (incl_attr, excl_attr)
  else
    let f := (pyFindChar item '(').getD 0
    let g := (pyFindChar item ')').getD 0
    let parenAttr := pySliceTo item f
    let inner := pySplitChar (pySlice item (f + 1) g) ','
    let step := fun (acc : Bool × Bool × List String) (attrItem : String) =>
      let (first, inclFlag, lst) := acc
      if first then
        if attrItem = "-" then (false, false, lst)
        else if attrItem = "+" then (false, inclFlag, lst)
        else (false, inclFlag, lst ++ [pyStrip attrItem])
      else (false, inclFlag, lst ++ [pyStrip attrItem])
    let r := inner.foldl step (true, true, [])
    if r.2.1 then (updateAList incl_attr parenAttr r.2.2, excl_attr)
    else (incl_attr, updateAList excl_attr parenAttr r.2.2)
where
  /-- Python `dict.update({k: v})`: replace the entry if the key exists,
  append it otherwise. -/
  updateAList (l : List (String × List String)) (k : String) (v : List String) :
      List (String × List String) :=
    if (List.lookup k l).isSome then
      l.map (fun p => if p.1 = k then (k, v) else p)
    else l ++ [(k, v)]

/-- sensor.py:1856-1935: the loop over `incl_excl_list`, with the leading
`+`/`-` sign item switching between include and exclude buckets. -/
def parenItemsLoop : List String → Bool → Bool →
    List String → List String → List (String × List String) →
    List (String × List String) →
    (List String × List String × List (String × List String) ×
      List (String × List String))
  | [], _, _, incl, excl, ia, ea => (incl, excl, ia, ea)
  | item :: rest, first, inclFlag, incl, excl, ia, ea =>
    if first ∧ item = "-" then parenItemsLoop rest false false incl excl ia ea
    else if first ∧ item = "+" then parenItemsLoop rest false inclFlag incl excl ia ea
    else if item = "" then parenItemsLoop rest false inclFlag incl excl ia ea
    else if pyContainsChar item '(' then
      let (ia', ea') := parseAttrItem item ia ea
      parenItemsLoop rest false inclFlag incl excl ia' ea'
    else if inclFlag then parenItemsLoop rest false inclFlag (incl ++ [item]) excl ia ea
    else parenItemsLoop rest false inclFlag incl (excl ++ [item]) ia ea

/-- sensor.py:1820-1951 `parse_parens`. `.error ()` models the `IndexError`
the source raises when indexing `curr_options[0]` on an empty string. -/
def parse_parens (s0 : String) : Except Unit ParensOut :=
  match s0.data with
  | [] => .error ()
  | c0 :: rest0 =>
    let l := if c0 = '(' then rest0 else s0.data
    match l with
    | [] => .error ()
    | c1 :: _ =>
      if c1 = ')' then
        .ok ([], [], [], [], ⟨l.drop 1⟩)
      else
        let (items, close, cnt) := parensScanGo l l 0 1 0 []
        if close > 0 ∧ cnt = 0 ∧ items ≠ [] then
          let (incl, excl, ia, ea) := parenItemsLoop items true true [] [] [] []
          .ok (incl, excl, ia, ea, ⟨l.drop (close + 1)⟩)
        else
          .ok ([], [], [], [], ⟨l.drop (close + 1)⟩)

/-! ## `parse_bracket` (sensor.py:1953-2003) -/

/-- The character scan of sensor.py:1972-1979: nesting counter starting
at 1; returns `(close_bracket_num, bracket_count)`, with close staying 0
when no matching close bracket is found. -/
def bracketScanGo : List Char → Nat → Nat → (Nat × Nat)
  | [], _, count => (0, count)
  | c :: rest, i, count =>
    let count' := if c = '[' then count + 1 else if c = ']' then count - 1 else count
    if count' = 0 then (i, 0) else bracketScanGo rest (i + 1) count'

/-- sensor.py:1953-2003 `parse_bracket`: returns `(none_opt, next_opt)`,
both `None` on a bracket mismatch (logged in the source). `.error ()`
models the `IndexError` on indexing an empty string. -/
def parse_bracket (s0 : String) : Except Unit (Option String × Option String) :=
  match s0.data with
  | [] => .error ()
  | c0 :: rest0 =>
    let l := if c0 = '[' then rest0 else s0.data
    match l with
    | [] => .error ()
    | c1 :: _ =>
      if c1 = ']' then
        .ok (some "", some (pyStrip ⟨l.drop 1⟩))
      else
        let (close, cnt) := bracketScanGo l 0 1
        if close > 0 ∧ cnt = 0 then
          .ok (some (pyStrip ⟨l.take close⟩), some (pyStrip ⟨l.drop (close + 1)⟩))
        else
          .ok (none, none)

/-! ## `build_from_advanced_options` (sensor.py:1562-1818) -/

/-- The source's first-symbol test (sensor.py:1602-1606 and the two `elif`
mirrors): `a` is first iff it occurs (`find ≠ -1`) and precedes both `b`
and `c` whenever those occur. -/
def isFirstSym (a b c : Option Nat) : Bool :=
  match a with
  | none => false
  | some ai =>
    (match b with | none => true | some bi => decide (ai < bi)) &&
    (match c with | none => true | some ci => decide (ai < ci))

/-- Resolve one option term and append it to the state list when the result
is truthy (sensor.py:1618-1627 and the analogous blocks). The returned
`Bool` says whether the resolved state was truthy (used for the
bracket-fallback `elif`). -/
def resolveAppend (store : AttrStore) (opt : String) (incl excl : List String)
    (ia ea : List (String × List String)) (st : Interp) : Bool × Interp :=
  match get_option_state store (pyStrip opt) incl excl ia ea st with
  | (some v, st') => if v ≠ "" then (true, pushState v st') else (false, st')
  | (none, st') => (false, st')

/-- sensor.py:1562-1818 `build_from_advanced_options`, with explicit fuel
for the recursion (every recursive call is on a strictly shorter string, so
`length + 1` fuel at the top level is exact; fuel exhaustion returns
`.error ()` and is unreachable from `resolveAdv`). `.error ()` otherwise
models an uncaught Python exception from `parse_parens`/`parse_bracket`
indexing an empty string. -/
def buildGo (store : AttrStore) : Nat → String → Interp → Except Unit Interp
  | 0, _, _ => .error ()
  | fuel + 1, s, st =>
    if pyCountChar s '[' ≠ pyCountChar s ']' then .ok st
    else if pyCountChar s '(' ≠ pyCountChar s ')' then .ok st
    else if s = "" then .ok st
    else if pyContainsChar s '[' ∨ pyContainsChar s '(' then
      let comma := pyFindChar s ','
      let bracket := pyFindChar s '['
      let paren := pyFindChar s '('
      if isFirstSym comma bracket paren then
        -- Comma is the first symbol (sensor.py:1602-1642)
        let ci := comma.getD 0
        let opt := pySliceTo s ci
        let st1 := if opt ≠ "" then (resolveAppend store opt [] [] [] [] st).2 else st
        let next := pySliceFrom s (ci + 1)
        if next ≠ "" then buildGo store fuel (pyStrip next) st1 else .ok st1
      else if isFirstSym bracket comma paren then
        -- Bracket is the first symbol (sensor.py:1643-1711)
        let bi := bracket.getD 0
        let opt := pySliceTo s bi
        (parse_bracket (pySliceFrom s bi)).bind (fun br =>
          let none_opt := br.1
          let next1 := br.2
          let chase : Except Unit (List String × List String ×
              List (String × List String) × List (String × List String) ×
              Option String) :=
            match next1 with
            | some t =>
              if t ≠ "" ∧ t.length > 1 ∧ t.data.head? = some '(' then
                (parse_parens t).map
                  (fun r => (r.1, r.2.1, r.2.2.1, r.2.2.2.1, some r.2.2.2.2))
              else .ok ([], [], [], [], next1)
            | none => .ok ([], [], [], [], none)
          chase.bind (fun q =>
            let incl := q.1
            let excl := q.2.1
            let ia := q.2.2.1
            let ea := q.2.2.2.1
            let next2 := q.2.2.2.2
            let afterOpt : Except Unit Interp :=
              if opt ≠ "" then
                let r := resolveAppend store opt incl excl ia ea st
                if r.1 then .ok r.2
                else
                  match none_opt with
                  | some u => if u ≠ "" then buildGo store fuel (pyStrip u) r.2 else .ok r.2
                  | none => .ok r.2
              else .ok st
            afterOpt.bind (fun st1 =>
              match next2 with
              | some t =>
                if t ≠ "" ∧ t.length > 1 ∧ t.data.head? = some ',' then
                  let nx := pySliceFrom t 1
                  if nx ≠ "" then buildGo store fuel (pyStrip nx) st1 else .ok st1
                else .ok st1
              | none => .ok st1)))
      else if isFirstSym paren comma bracket then
        -- Parenthesis is the first symbol (sensor.py:1712-1782)
        let pi0 := paren.getD 0
        let opt := pySliceTo s pi0
        (parse_parens (pySliceFrom s pi0)).bind (fun pr =>
          let incl := pr.1
          let excl := pr.2.1
          let ia := pr.2.2.1
          let ea := pr.2.2.2.1
          let nextS := pr.2.2.2.2
          let chase : Except Unit (Option String × Option String) :=
            if nextS ≠ "" ∧ nextS.length > 1 ∧ nextS.data.head? = some '[' then
              parse_bracket nextS
            else .ok (none, some nextS)
          chase.bind (fun br =>
            let none_opt := br.1
            let next2 := br.2
            let afterOpt : Except Unit Interp :=
              if opt ≠ "" then
                let r := resolveAppend store opt incl excl ia ea st
                if r.1 then .ok r.2
                else
                  match none_opt with
                  | some u => if u ≠ "" then buildGo store fuel (pyStrip u) r.2 else .ok r.2
                  | none => .ok r.2
              else .ok st
            afterOpt.bind (fun st1 =>
              match next2 with
              | some t =>
                if t ≠ "" ∧ t.length > 1 ∧ t.data.head? = some ',' then
                  let nx := pySliceFrom t 1
                  if nx ≠ "" then buildGo store fuel (pyStrip nx) st1 else .ok st1
                else .ok st1
              | none => .ok st1)))
      else .ok st
    else if pyContainsChar s ',' then
      -- Plain comma-separated list, no brackets or parens (sensor.py:1784-1801)
      .ok ((pySplitChar s ',').foldl
        (fun acc piece =>
          if piece ≠ "" then (resolveAppend store piece [] [] [] [] acc).2 else acc)
        st)
    else
      -- Single bare term (sensor.py:1802-1817)
      .ok (resolveAppend store s [] [] [] [] st).2

/-- `build_from_advanced_options` started from the freshly reset
interpreter state, as `do_update` does (sensor.py:2791-2806). -/
def resolveAdv (store : AttrStore) (expr : String) : Except Unit Interp :=
  buildGo store (expr.length + 1) expr
    { stateList := [], street_num_i := -1, street_i := -1, temp_i := 0 }

/-! ## `compile_state_from_advanced_options` (sensor.py:2121-2148) -/

/-- The item loop of `compile_state_from_advanced_options`: `i` is the
`enumerate` index, `acc` the native value so far (`none` while `first` is
still true), `si` is `street_i` and `sni1` is the already-incremented
`street_num_i`. -/
def compileGo (si sni1 : Int) : Nat → List String → Option String → Option String
  | _, [], acc => acc
  | i, out :: rest, acc =>
    if out ≠ "" then
      let o := pyStrip out
      match acc with
      | none => compileGo si sni1 (i + 1) rest (some o)
      | some a =>
        compileGo si sni1 (i + 1) rest
          (some (a ++ (if (i : Int) = si ∧ (i : Int) = sni1 then " " else ", ") ++ o))
    else compileGo si sni1 (i + 1) rest acc

/-- sensor.py:2121-2148 `compile_state_from_advanced_options` on an
explicit state list and street/street-number indices (the source first
increments `street_num_i`, then joins). Returns the new
`ATTR_NATIVE_VALUE`, `none` when no item was truthy (the source then leaves
the attribute untouched). -/
def compileCore (si sni : Int) (l : List String) : Option String :=
  compileGo si (sni + 1) 0 l none

/-- The compile step applied to the interpreter state. -/
def compile_state_from_advanced_options (st : Interp) : Option String :=
  compileCore st.street_i st.street_num_i st.stateList

/-- The whole advanced-options evaluation as `do_update` performs it
(sensor.py:2791-2813): reset the interpreter fields, build, compile. -/
def runAdvanced (store : AttrStore) (expr : String) (prior : Interp) :
    Except Unit (List String × Option String) :=
  (buildGo store (expr.length + 1) expr (resetInterpFrom prior)).map
    (fun st => (st.stateList, compile_state_from_advanced_options st))

/-! ## AddressNormalizer: `parse_osm_dict` place-name part (sensor.py:1186-1268)

The embedding takes the geocode response as a structure. The `address`
table is taken as present because sensor.py:1242 indexes
`osm_dict.get("address")` unconditionally (a response with no `address`
key would raise `TypeError` there). `namedetails` stays optional: it is
guarded at sensor.py:1220 but indexed unguarded at sensor.py:1229 when a
language is configured, which the embedding models as `.error ()`. -/

/-- The fields of the raw OSM reverse-geocode response read by the
place-name logic. -/
structure OsmDict where
  typ : Option String
  addresstype : Option String
  category : Option String
  namedetails : Option (List (String × String))
  address : List (String × String)
deriving DecidableEq, Repr

/-- Lookup in a JSON-object table (`key in d` / `d.get(key)`). -/
def oget (l : List (String × String)) (k : String) : Option String :=
  List.lookup k l

/-- Blank test on an attribute value as stored by `set_attr` (`some v`,
possibly empty) — `is_attr_blank` for these string attributes. -/
def blankO : Option String → Bool
  | none => true
  | some v => v = ""

/-- `get_attr` on such a value: `none` when blank. -/
def getO : Option String → Option String
  | none => none
  | some v => if v = "" then none else some v

/-- The canonical fields produced by the place-name part of
`parse_osm_dict`. -/
structure OsmFields where
  placeType : Option String
  placeName : Option String
  placeCategory : Option String
  streetNumber : Option String
  street : Option String
deriving DecidableEq, Repr

/-- sensor.py:1187-1196: `ATTR_PLACE_TYPE` from `type`, with the literal
`"yes"` replaced by `addresstype` or cleared. -/
def ptStep (osm : OsmDict) : Option String :=
  match osm.typ with
  | none => none
  | some t =>
    if getO (some t) = some "yes" then
      match osm.addresstype with
      | some a => some a
      | none => none
    else some t

/-- sensor.py:1197-1205: `ATTR_PLACE_NAME` from `address[place_type]` when
that key is present. -/
def pnStep1 (osm : OsmDict) : Option String :=
  match getO (ptStep osm) with
  | some k =>
    match oget osm.address k with
    | some v => some v
    | none => none
  | none => none

/-- sensor.py:1206-1210: `ATTR_PLACE_CATEGORY` from `category`. -/
def pcStep (osm : OsmDict) : Option String :=
  match osm.category with
  | none => none
  | some c => some c

/-- sensor.py:1211-1219: `ATTR_PLACE_NAME` overwritten from
`address[place_category]` when that key is present. -/
def pnStep2 (osm : OsmDict) : Option String :=
  match osm.category with
  | none => pnStep1 osm
  | some c =>
    match getO (some c) with
    | some k =>
      match oget osm.address k with
      | some v => some v
      | none => pnStep1 osm
    | none => pnStep1 osm

/-- sensor.py:1220-1226: `ATTR_PLACE_NAME` overwritten from
`namedetails.name` when present. -/
def pnStep3 (osm : OsmDict) : Option String :=
  match osm.namedetails with
  | some nd =>
    match oget nd "name" with
    | some v => some v
    | none => pnStep2 osm
  | none => pnStep2 osm

/-- sensor.py:1228-1238: first configured language whose
`namedetails."name:<lang>"` key is present overwrites the place name. -/
def langLoop (nd : List (String × String)) : List String → Option String → Option String
  | [], pn => pn
  | l :: rest, pn =>
    match oget nd ("name:" ++ l) with
    | some v => some v
    | none => langLoop nd rest pn

/-- sensor.py:1227-1238: the language pass. When `CONF_LANGUAGE` is
non-blank and the response has no `namedetails` key, the source raises
`TypeError` (`"name:x" in None`), modelled as `.error ()`. -/
def pnStep4 (osm : OsmDict) (language : String) : Except Unit (Option String) :=
  if language ≠ "" then
    match osm.namedetails with
    | none => .error ()
    | some nd => .ok (langLoop nd (pySplitChar language ',') (pnStep3 osm))
  else .ok (pnStep3 osm)

/-- sensor.py:1242-1268: street number, street, and the retail fallback
for the place name. -/
def osmTail (osm : OsmDict) (pt pc pn : Option String) : OsmFields :=
  let sn := match oget osm.address "house_number" with
    | some v => some v
    | none => none
  let street := match oget osm.address "road" with
    | some v => some v
    | none => none
  let pn' :=
    if (blankO pn ∨ (¬ blankO pc ∧ ¬ blankO street ∧ getO pc = some "highway" ∧
          getO street = getO pn)) ∧ (oget osm.address "retail").isSome then
      match oget osm.address "retail" with
      | some v => some v
      | none => pn
    else pn
  { placeType := pt, placeName := pn', placeCategory := pc,
    streetNumber := sn, street := street }

/-- sensor.py:1186-1268: the place-name portion of `parse_osm_dict`, as a
function of the response and the configured language string. -/
def parse_osm_place (osm : OsmDict) (language : String) : Except Unit OsmFields :=
  (pnStep4 osm language).map (fun pn => osmTail osm (ptStep osm) (pcStep osm) pn)

/-- "Later source wins": keep `a` when present (even when empty), else `b`. -/
def orElseO : Option String → Option String → Option String
  | some v, _ => some v
  | none, b => b

/-- Source 1 of the place name: `address[place_type]` when the (non-blank)
place type is a key of the address table. -/
def fromTypeSrc (osm : OsmDict) : Option String :=
  match getO (ptStep osm) with
  | some k => oget osm.address k
  | none => none

/-- Source 2 of the place name: `address[place_category]` when the
(non-blank) place category is a key of the address table. -/
def fromCatSrc (osm : OsmDict) : Option String :=
  match getO (pcStep osm) with
  | some k => oget osm.address k
  | none => none

/-- Source 3 of the place name: `namedetails.name` when present. -/
def fromNameSrc (osm : OsmDict) : Option String :=
  match osm.namedetails with
  | some nd => oget nd "name"
  | none => none

/-- The retail fallback as the amended claim words it: `address.retail`
(when that key is present) replaces the chosen name exactly when the name
is blank, or when the category is "highway" and the street equals the name
(category and street non-blank). Structurally identical to the `pn'`
computation inside `osmTail`. -/
def retailRule (osm : OsmDict) (pn : Option String) : Option String :=
  let street := match oget osm.address "road" with
    | some v => some v
    | none => none
  if (blankO pn ∨ (¬ blankO (pcStep osm) ∧ ¬ blankO street ∧
        getO (pcStep osm) = some "highway" ∧ getO street = getO pn)) ∧
      (oget osm.address "retail").isSome then
    match oget osm.address "retail" with
    | some v => some v
    | none => pn
  else pn

/-- The place-name selection as the AMENDED claim words it: the four
sources in order `address[place_type]`, `address[place_category]`,
`namedetails.name`, `namedetails."name:<lang>"` (first configured language
whose key is present), with each LATER present source overwriting the
earlier ones — the last match wins — followed by the retail rule; a
configured language with no `namedetails` table is the source's
`TypeError`. -/
def placeNameChain (osm : OsmDict) (language : String) : Except Unit (Option String) :=
  if language ≠ "" then
    match osm.namedetails with
    | none => .error ()
    | some nd =>
      .ok (retailRule osm
        (orElseO (langLoop nd (pySplitChar language ',') none)
          (orElseO (fromNameSrc osm) (orElseO (fromCatSrc osm) (fromTypeSrc osm)))))
  else
    .ok (retailRule osm
      (orElseO (fromNameSrc osm) (orElseO (fromCatSrc osm) (fromTypeSrc osm))))

/-- The place-name selection as the spec words it (claim C5's reading),
for comparison with `parse_osm_place`: fallback precedence
`address[place_type]`, else `address[place_category]`, else
`namedetails.name`, else `namedetails."name:<lang>"` per configured
language, FIRST matching source wins; `address.retail` only if the result
is still blank or equals the street while the category is "highway". -/
def placeNameSpecC5 (osm : OsmDict) (langs : List String) : Option String :=
  let fromType := match getO (ptStep osm) with
    | some k => oget osm.address k
    | none => none
  let fromCat := match getO (pcStep osm) with
    | some k => oget osm.address k
    | none => none
  let fromName := match osm.namedetails with
    | some nd => oget nd "name"
    | none => none
  let fromLang := match osm.namedetails with
    | some nd => langLoop nd langs none
    | none => none
  let chosen := fromType <|> fromCat <|> fromName <|> fromLang
  let street := oget osm.address "road"
  if (blankO chosen ∨ (getO (pcStep osm) = some "highway" ∧ chosen = street)) ∧
      (oget osm.address "retail").isSome then
    oget osm.address "retail"
  else chosen

/-! ## AddressNormalizer: cleaned city (sensor.py:1322-1330) -/

/-- sensor.py:1322-1330: the cleaned-city computation from a non-blank
city. `city.replace(" Township", "").strip()`, then the `"City of"`
rewrite. When the replace/strip result is empty the stored attribute is
blank, `get_attr` returns `None`, and `None.startswith` raises
`AttributeError` — modelled as `.error ()`. -/
def cityClean (city : String) : Except Unit String :=
  let c := pyStrip (pyReplace city " Township" "")
  if c = "" then .error ()
  else if pyStartsWith c "City of" then .ok (pySliceFrom c 8 ++ " City")
  else .ok c

/-- The cleaned-city rule as claim C8 words it, for comparison: strip the
SUFFIX `" Township"` (only at the end), then the `"City of"` rewrite. -/
def cityCleanSuffixSpec (city : String) : String :=
  let c := if pyEndsWith city " Township" then
      pySliceTo city (city.length - " Township".length)
    else city
  if pyStartsWith c "City of" then pySliceFrom c 8 ++ " City" else c

/-! ## ChangeArbiter: the final phase of `do_update` (sensor.py:2847-2939)

The full `_internal_attr` dict holds mixed Python values (strings, bools,
floats), so here the store maps keys to a tagged value type with Python's
truthiness. The attribute-key names below are tags for keys defined in the
integration's `const.py` (not under `src/`); only their distinctness
matters. -/

/-- A Python attribute value as stored in `_internal_attr`. -/
inductive PVal where
  | vStr : String → PVal
  | vBool : Bool → PVal
  | vNum : ℚ → PVal
deriving DecidableEq, Repr

/-- Python truthiness of a stored value. -/
def pvTruthy : PVal → Bool
  | .vStr s => s ≠ ""
  | .vBool b => b
  | .vNum q => q ≠ 0

/-- Python `value == 0` (true for `0`, `0.0` and `False`). -/
def pvIsZero : PVal → Bool
  | .vStr _ => false
  | .vBool b => !b
  | .vNum q => q = 0

/-- The full attribute store `self._internal_attr`. -/
def Store : Type := String → Option PVal

/-- `is_attr_blank` (sensor.py:783-787): blank unless truthy or `== 0`. -/
def sBlank (st : Store) (k : String) : Bool :=
  match st k with
  | none => true
  | some v => !(pvTruthy v || pvIsZero v)

/-- `get_attr` (sensor.py:669-673) with default `None`. -/
def sGet (st : Store) (k : String) : Option PVal :=
  if sBlank st k then none else st k

/-- `get_attr` of an attribute the source then uses as a string (the
source would raise on a non-string; theorems pin these attributes to
string values). -/
def sGetStr (st : Store) (k : String) : Option String :=
  match sGet st k with
  | some (.vStr v) => some v
  | _ => none

/-- `set_attr` (sensor.py:675-677). -/
def sSet (st : Store) (k : String) (v : PVal) : Store :=
  fun k' => if k' = k then some v else st k'

/-- `clear_attr` (sensor.py:679-680). -/
def sClear (st : Store) (k : String) : Store :=
  fun k' => if k' = k then none else st k'

/-- `cleanup_attributes` (sensor.py:789-792): drop every blank attribute. -/
def sCleanup (st : Store) : Store :=
  fun k => if sBlank st k then none else st k

def ATTR_PREVIOUS_STATE : String := "previous_state"
def ATTR_NATIVE_VALUE : String := "native_value"
def ATTR_DEVICETRACKER_ZONE : String := "devicetracker_zone"
def ATTR_DIRECTION_OF_TRAVEL : String := "direction_of_travel"
def ATTR_LAST_CHANGED : String := "last_changed"
def ATTR_LAST_UPDATED : String := "last_updated"
def ATTR_INITIAL_UPDATE : String := "initial_update"

/-- sensor.py:2851-2859: the three comparisons between previous state, new
state and zone (all via `.lower().strip()`, the previous state once with
spaces removed). `do_update` reaches this code only with a non-blank
`ATTR_DEVICETRACKER_ZONE` (guard at sensor.py:2712), and the compared
attributes are strings there (`.lower()` would raise otherwise), so the
`getD ""` defaults are never exercised under the theorems' hypotheses. -/
def stateChangedB (cur : Store) : Bool :=
  let P := (sGetStr cur ATTR_PREVIOUS_STATE).getD ""
  let N := (sGetStr cur ATTR_NATIVE_VALUE).getD ""
  let Z := (sGetStr cur ATTR_DEVICETRACKER_ZONE).getD ""
  (pyStrip (pyLower P) ≠ pyStrip (pyLower N)) &&
  (pyStrip (pyLower (pyReplace P " " "")) ≠ pyStrip (pyLower N)) &&
  (pyStrip (pyLower P) ≠ pyStrip (pyLower Z))

/-- sensor.py:2847-2864: the commit-vs-revert condition. Commit when
(non-blank previous and new states that differ under all three
comparisons) or a blank previous state or a blank new state or the
initial update. -/
def commitCondB (cur : Store) (initial : Bool) : Bool :=
  (!(sBlank cur ATTR_PREVIOUS_STATE) && !(sBlank cur ATTR_NATIVE_VALUE) &&
      stateChangedB cur) ||
    sBlank cur ATTR_PREVIOUS_STATE || sBlank cur ATTR_NATIVE_VALUE || initial

/-- sensor.py:2847-2939: the final phase of `do_update`, from the
commit-vs-revert comparison to the trailing `ATTR_LAST_UPDATED` write.
`previous_attr` is the deep copy taken at sensor.py:2642 before the update
began; `cur` is the store as mutated by the update so far (including the
fresh candidate `ATTR_NATIVE_VALUE` and the `ATTR_LAST_CHANGED` write at
sensor.py:2840); `initial` is `ATTR_INITIAL_UPDATE`; `dwellSec` is
`get_seconds_from_last_change(now)` evaluated on the post-revert store;
`nowIso` / `hour` / `minute` come from `now`. Event firing, JSON
persistence and logging do not touch `_internal_attr` and are omitted; the
commit-branch `get_extended_attr` fetch (sensor.py:2275-2306) stores the
fetched `osm_details_dict`/`wikidata_id`/`wikidata_dict` attributes and is
omitted too — it runs only in the commit branch and touches none of the
keys any theorem here mentions. -/
def doUpdateFinalPhase (previous_attr cur : Store) (initial showTime : Bool)
    (nowIso : String) (hour minute : Nat) (dwellSec : ℚ) : Store :=
  let current_time := pyFmtTime hour minute
  if commitCondB cur initial then
    let s1 := sCleanup cur
    let s2 :=
      if !(sBlank s1 ATTR_NATIVE_VALUE) then
        let nv := (sGetStr s1 ATTR_NATIVE_VALUE).getD ""
        sSet s1 ATTR_NATIVE_VALUE (.vStr
          (if showTime then
            pySliceTo nv (255 - 14) ++ " (since " ++ current_time ++ ")"
          else pySliceTo nv 255))
      else sClear s1 ATTR_NATIVE_VALUE
    let s3 := sSet s2 ATTR_INITIAL_UPDATE (.vBool false)
    sSet s3 ATTR_LAST_UPDATED (.vStr nowIso)
  else
    let s1 := previous_attr
    let s2 :=
      if sGet s1 ATTR_DIRECTION_OF_TRAVEL ≠ some (.vStr "stationary") ∧
          dwellSec ≥ 60 then
        sSet (sSet s1 ATTR_DIRECTION_OF_TRAVEL (.vStr "stationary"))
          ATTR_LAST_CHANGED (.vStr nowIso)
      else s1
    sSet s2 ATTR_LAST_UPDATED (.vStr nowIso)

/-! ## Claim-side join (C2) and concrete instances used by the theorems -/

/-- "Joined with comma+space", as the claim words it. -/
def joinCommaSpace : List String → String
  | [] => ""
  | [x] => x
  | x :: y :: rest => x ++ ", " ++ joinCommaSpace (y :: rest)

/-- Tail of a comma+space join: `", " ++ x` per item. -/
def tailJoin : List String → String
  | [] => ""
  | x :: rest => ", " ++ x ++ tailJoin rest

/-- Tail of the code's join starting at `enumerate` index `i`: separator
`" "` exactly at an index equal to both `street_i` and the incremented
`street_num_i`, `", "` otherwise. -/
def sepTail (si sni1 : Int) : Nat → List String → String
  | _, [] => ""
  | i, x :: rest =>
    (if (i : Int) = si ∧ (i : Int) = sni1 then " " else ", ") ++ x ++
      sepTail si sni1 (i + 1) rest

/-- A store whose place category is the given value and nothing else. -/
def storeCat (cat : String) : AttrStore :=
  fun k => if k = "place_category" then some cat else none

/-- Store for the C4 instance: a resolvable city. -/
def storeC4 : AttrStore :=
  fun k => if k = "city" then some "Springfield" else none

/-- Geocode response for the C5 instance: `address.type = "pub"`,
`address["pub"] = "The Crown"`, `namedetails.name = "The Eagle"`. -/
def osmC5 : OsmDict :=
  { typ := some "pub", addresstype := none, category := none,
    namedetails := some [("name", "The Eagle")],
    address := [("pub", "The Crown")] }

/-- Pre-update deep copy for the C1 instance. -/
def prevStoreC1 : Store := fun k =>
  if k = ATTR_NATIVE_VALUE then some (.vStr "Downtown, Springfield")
  else if k = ATTR_DIRECTION_OF_TRAVEL then some (.vStr "north")
  else if k = ATTR_LAST_UPDATED then some (.vStr "2024-05-01 10:00:00")
  else if k = ATTR_LAST_CHANGED then some (.vStr "2024-05-01 10:00:00")
  else if k = ATTR_DEVICETRACKER_ZONE then some (.vStr "not_home")
  else none

/-- Mid-update store for the C1 instance at sensor.py:2847: candidate state
`"downtown, springfield"` differs from the previous state only by case. -/
def curStoreC1 : Store := fun k =>
  if k = ATTR_PREVIOUS_STATE then some (.vStr "Downtown, Springfield")
  else if k = ATTR_NATIVE_VALUE then some (.vStr "downtown, springfield")
  else if k = ATTR_DIRECTION_OF_TRAVEL then some (.vStr "north")
  else if k = ATTR_LAST_UPDATED then some (.vStr "2024-05-01 10:00:00")
  else if k = ATTR_LAST_CHANGED then some (.vStr "2024-05-01 10:05:00")
  else if k = ATTR_DEVICETRACKER_ZONE then some (.vStr "not_home")
  else none

/-- Mid-update store for the C10 witness: a long candidate state. -/
def curStoreC10 : Store := fun k =>
  if k = ATTR_NATIVE_VALUE then
    some (.vStr (String.mk (List.replicate 300 'a')))
  else none

/-! ## Helper lemmas -/

theorem strMk_append (a b : List Char) :
    String.mk a ++ String.mk b = String.mk (a ++ b) := rfl

theorem strLength_data (s : String) : s.length = s.data.length := rfl

theorem strAppend_assoc (a b c : String) : a ++ b ++ c = a ++ (b ++ c)  := by
  obtain ⟨la⟩ := a
  obtain ⟨lb⟩ := b
  obtain ⟨lc⟩ := c
  rw [strMk_append, strMk_append, strMk_append, strMk_append, List.append_assoc]

theorem strAppend_empty (s : String) : s ++ "" = s := by
  obtain ⟨l⟩ := s
  show String.mk l ++ String.mk [] = String.mk l
  rw [strMk_append, List.append_nil]

theorem strAppend_length (s t : String) : (s ++ t).length = s.length + t.length := by
  obtain ⟨a⟩ := s
  obtain ⟨b⟩ := t
  rw [strMk_append]
  simp [strLength_data]

theorem pySliceTo_length_le (s : String) (n : Nat) : (pySliceTo s n).length ≤ n := by
  obtain ⟨a⟩ := s
  simp only [pySliceTo, strLength_data]
  exact (List.length_take n a).trans_le (Nat.min_le_left n a.length)

theorem pyFmtTime_length : ∀ h : Nat, h < 24 → ∀ m : Nat, m < 60 →
    (pyFmtTime h m).length = 5 := by decide

theorem sCleanup_apply (st : Store) (k : String) :
    sCleanup st k = if sBlank st k then none else st k := rfl

theorem sBlank_sCleanup (st : Store) (k : String) :
    sBlank (sCleanup st) k = sBlank st k := by
  by_cases hb : sBlank st k = true
  · have hc : sCleanup st k = none := by rw [sCleanup_apply, if_pos hb]
    simp only [sBlank] at hb ⊢
    rw [hc]
    exact hb.symm
  · have hb' : sBlank st k = false := by simpa using hb
    have hc : sCleanup st k = st k := by rw [sCleanup_apply, hb']; rfl
    simp only [sBlank] at hb' ⊢
    rw [hc, hb']

theorem sGet_sCleanup (st : Store) (k : String) :
    sGet (sCleanup st) k = sGet st k := by
  simp only [sGet, sBlank_sCleanup, sCleanup]
  by_cases hb : sBlank st k = true
  · simp [hb]
  · simp [hb]

theorem sGetStr_sCleanup (st : Store) (k : String) :
    sGetStr (sCleanup st) k = sGetStr st k := by
  simp [sGetStr, sGet_sCleanup]

/-- `pyReplaceLGo` leaves a list without any occurrence of the pattern
unchanged. -/
theorem pyReplaceLGo_no_occ (pat rep : List Char) :
    ∀ (fuel : Nat) (l : List Char), pyHasSub.go pat l = false →
      pyReplaceLGo pat rep fuel l = l := by
  intro fuel
  induction fuel with
  | zero => intro l _; rfl
  | succ n ih =>
    intro l h
    cases l with
    | nil => rfl
    | cons c rest =>
      rw [pyHasSub.go] at h
      have h1 : pat.isPrefixOf (c :: rest) = false := by
        cases hp : pat.isPrefixOf (c :: rest) <;> simp [hp] at h ⊢
      have h2 : pyHasSub.go pat rest = false := by
        cases hp : pyHasSub.go pat rest <;> simp [hp] at h ⊢
      rw [pyReplaceLGo, if_neg (by simp [h1]), ih rest h2]

/-- `pyReplaceL` leaves a list without any occurrence of the pattern
unchanged. -/
theorem pyReplaceL_no_occ (pat rep l : List Char)
    (h : pyHasSub.go pat l = false) : pyReplaceL pat rep l = l :=
  pyReplaceLGo_no_occ pat rep l.length l h

/-! ## Claim theorems -/

/-- C6: when the GPS-accuracy attribute is present with numeric value 0 and
GPS-based updates are enabled, `get_gps_accuracy` returns the skip-silently
code 0 (never the proceed code 1); an absent accuracy attribute never
triggers the rule. -/
theorem C6_gps_zero_accuracy_skips :
    get_gps_accuracy_gate (some 0) true = 0 ∧
    get_gps_accuracy_gate (some 0) true ≠ 1 ∧
    (∀ useGps : Bool, get_gps_accuracy_gate none useGps = 1) := by
  refine ⟨by decide, by decide, ?_⟩
  intro u
  rfl

/-- C7: for a non-first update, string-equal coordinates or a distance
traveled below 10 meters make `determine_if_update_needed` return the
skip-but-mark-stationary code 2; on the very first update it returns the
proceed code 1 regardless of distance. -/
theorem C7_movement_gate (initial : Bool) (locCur locPrev : Option String) (d : ℚ) :
    (initial = true → determine_if_update_needed initial locCur locPrev d = 1) ∧
    (initial = false → locCur = locPrev →
      determine_if_update_needed initial locCur locPrev d = 2) ∧
    (initial = false → 0 ≤ d → d < 10 →
      determine_if_update_needed initial locCur locPrev d = 2) := by
  refine ⟨?_, ?_, ?_⟩
  · intro h
    simp [determine_if_update_needed, h]
  · intro h he
    simp [determine_if_update_needed, h, he]
  · intro h h0 h10
    by_cases he : locCur = locPrev
    · simp [determine_if_update_needed, h, he]
    · have ht : pyIntTrunc d < 10 := by
        simp only [pyIntTrunc, if_pos h0]
        exact Int.floor_lt.mpr (by exact_mod_cast h10)
      simp [determine_if_update_needed, h, he, ht]

theorem C7_movement_gate_witness :
    determine_if_update_needed true none none 0 = 1 ∧
    determine_if_update_needed false (some "40.1,-88.2") (some "40.1,-88.2") 50 = 2 ∧
    determine_if_update_needed false (some "40.1,-88.2") (some "40.2,-88.2") (19 / 2) = 2 :=
  ⟨(C7_movement_gate true none none 0).1 rfl,
   (C7_movement_gate false (some "40.1,-88.2") (some "40.1,-88.2") 50).2.1 rfl rfl,
   (C7_movement_gate false (some "40.1,-88.2") (some "40.2,-88.2") (19 / 2)).2.2
     rfl (by norm_num) (by norm_num)⟩

/-- C9: the advanced-options evaluation of `do_update` — reset of every
mutable interpreter field, build, compile — yields identical resolved
output no matter what interpreter state was left behind, so evaluating the
same expression against the same store twice gives the same output both
times. -/
theorem C9_resolution_deterministic (store : AttrStore) (expr : String)
    (prior₁ prior₂ : Interp) :
    runAdvanced store expr prior₁ = runAdvanced store expr prior₂ := rfl

/-- C3 (counterexample): with the place category stored as `"highway"`, the
spec's literal term `"place_category(+highway)"` resolves to NO item — the
leading `+` is not split off, so the include set is `{"+highway"}` and the
value `"highway"` is not a member. -/
theorem C3_counterexample_plus_attached :
    storeCat "highway" "place_category" = some "highway" ∧
    (resolveAdv (storeCat "highway") "place_category(+highway)").map Interp.stateList =
      .ok [] :=
  ⟨rfl, rfl⟩

/-- C3 (amended): the include sign must be its own comma item, as in
`"place_category(+,highway)"`; that syntax parses to the include set
`{"highway"}`, and resolving `place_category` against it yields blank when
the stored category is not exactly `"highway"` and the title-cased value
`"Highway"` when it is; end to end the expression compiles to
`["Highway"]`. -/
theorem C3_amended_filter (cat : String) (st : Interp) :
    parse_parens "(+,highway)" = .ok (["highway"], [], [], [], "") ∧
    (get_option_state (storeCat cat) "place_category" ["highway"] [] [] [] st).1 =
      (if cat = "highway" then some "Highway" else none) ∧
    (resolveAdv (storeCat "highway") "place_category(+,highway)").map Interp.stateList =
      .ok ["Highway"] := by
  refine ⟨rfl, ?_, rfl⟩
  by_cases h0 : cat = ""
  · subst h0
    rfl
  · by_cases hc : cat = "highway"
    · subst hc
      rfl
    · have hne : ("place_category" : String) ≠ "" := by decide
      have key : List.lookup (pyStrip (pyLower "place_category")) DISPLAY_OPTIONS_MAP =
          some ATTR_PLACE_CATEGORY := by decide
      simp only [get_option_state, if_pos hne]
      rw [key]
      have hv : getAttrOpt (storeCat cat) (some ATTR_PLACE_CATEGORY) = some cat := by
        simp [getAttrOpt, storeCat, ATTR_PLACE_CATEGORY, h0]
      rw [hv]
      have hmem : cat ∉ (["highway"] : List String) := by simp [hc]
      simp [hmem, hc]

/-- C4 (amended): an advanced option expression whose bracket counts (or,
brackets balancing, whose parenthesis counts) do not match is abandoned in
whole at entry: `build_from_advanced_options` logs and returns with the
state list untouched — no exception propagates, the unbalanced branch
contributes no items, and sibling terms of the same list do NOT resolve
either. -/
theorem C4_amended_unbalanced (store : AttrStore) (fuel : Nat) (s : String)
    (st : Interp)
    (h : pyCountChar s '[' ≠ pyCountChar s ']' ∨
      pyCountChar s '(' ≠ pyCountChar s ')') :
    buildGo store (fuel + 1) s st = .ok st := by
  by_cases hb : pyCountChar s '[' = pyCountChar s ']'
  · have hp : pyCountChar s '(' ≠ pyCountChar s ')' :=
      h.resolve_left (not_not_intro hb)
    simp only [buildGo]
    rw [if_neg (not_not_intro hb), if_pos hp]
  · simp only [buildGo]
    rw [if_pos hb]

theorem C4_amended_unbalanced_witness :
    pyCountChar "city,place_name[state" '[' ≠ pyCountChar "city,place_name[state" ']' ∧
    buildGo storeC4 21 "city,place_name[state"
        { stateList := [], street_num_i := -1, street_i := -1, temp_i := 0 } =
      .ok { stateList := [], street_num_i := -1, street_i := -1, temp_i := 0 } :=
  ⟨by decide,
   C4_amended_unbalanced storeC4 20 "city,place_name[state"
     { stateList := [], street_num_i := -1, street_i := -1, temp_i := 0 }
     (Or.inl (by decide))⟩

/-- C4 (counterexample): in `"city,place_name[state"` the sibling term
`city` is valid and resolvable on its own, yet the unbalanced expression
yields NO resolved items at all — the claim's "remaining valid terms in
the same list still resolve" fails. -/
theorem C4_counterexample_sibling_lost :
    storeC4 "city" = some "Springfield" ∧
    (resolveAdv storeC4 "city").map Interp.stateList = .ok ["Springfield"] ∧
    (resolveAdv storeC4 "city,place_name[state").map Interp.stateList = .ok [] :=
  ⟨rfl, rfl, rfl⟩

/-- C5 (counterexample): with `address.type = "pub"`,
`address["pub"] = "The Crown"` and `namedetails.name = "The Eagle"`, the
code yields `"The Eagle"` — the LATER source overrides — while the claim's
first-match-wins precedence would pick `"The Crown"`. -/
theorem C5_counterexample_precedence :
    (parse_osm_place osmC5 "").map OsmFields.placeName = .ok (some "The Eagle") ∧
    placeNameSpecC5 osmC5 [] = some "The Crown" ∧
    (some "The Eagle" : Option String) ≠ some "The Crown" :=
  ⟨rfl, rfl, by decide⟩

theorem pnStep1_eq (osm : OsmDict) : pnStep1 osm = fromTypeSrc osm := by
  unfold pnStep1 fromTypeSrc
  cases getO (ptStep osm) with
  | none => rfl
  | some k => cases h : oget osm.address k <;> simp [h]

theorem pnStep2_eq (osm : OsmDict) :
    pnStep2 osm = orElseO (fromCatSrc osm) (pnStep1 osm) := by
  unfold pnStep2 fromCatSrc pcStep
  cases osm.category with
  | none => rfl
  | some c =>
    cases hg : getO (some c) with
    | none => simp [hg, orElseO]
    | some k =>
      cases h : oget osm.address k <;> simp [hg, h, orElseO]

theorem pnStep3_eq (osm : OsmDict) :
    pnStep3 osm = orElseO (fromNameSrc osm) (pnStep2 osm) := by
  unfold pnStep3 fromNameSrc
  cases osm.namedetails with
  | none => rfl
  | some nd => cases h : oget nd "name" <;> simp [h, orElseO]

theorem langLoop_orElse (nd : List (String × String)) :
    ∀ (langs : List String) (pn : Option String),
      langLoop nd langs pn = orElseO (langLoop nd langs none) pn := by
  intro langs
  induction langs with
  | nil => intro pn; rfl
  | cons l rest ih =>
    intro pn
    cases h : oget nd ("name:" ++ l) with
    | some v => simp [langLoop, h, orElseO]
    | none => simp [langLoop, h, ih pn]

theorem osmTail_placeName (osm : OsmDict) (pt pn : Option String) :
    (osmTail osm pt (pcStep osm) pn).placeName = retailRule osm pn := rfl

/-- C5 (amended): the four sources are applied in sequence with each LATER
present source overwriting the earlier ones — `address[place_type]`, then
`address[place_category]`, then `namedetails.name`, then
`namedetails."name:<lang>"` for the first configured language whose key is
present; the last matching source wins, not the first. Afterwards
`address.retail` (when present) replaces the result exactly when the
result is blank, or when the category is "highway" and the (non-blank)
street equals the result. Proved as a full refinement: for EVERY geocode
response and configured language string the code's place name equals this
last-wins chain (including the `TypeError` when a language is configured
but `namedetails` is absent). -/
theorem C5_amended_chain (osm : OsmDict) (language : String) :
    (parse_osm_place osm language).map OsmFields.placeName =
      placeNameChain osm language := by
  unfold parse_osm_place pnStep4 placeNameChain
  by_cases hl : language ≠ ""
  · rw [if_pos hl, if_pos hl]
    cases h : osm.namedetails with
    | none => rfl
    | some nd =>
      simp only [Except.map]
      rw [osmTail_placeName]
      rw [langLoop_orElse nd (pySplitChar language ',') (pnStep3 osm)]
      rw [pnStep3_eq, pnStep2_eq, pnStep1_eq]
  · rw [if_neg hl, if_neg hl]
    simp only [Except.map]
    rw [osmTail_placeName]
    rw [pnStep3_eq, pnStep2_eq, pnStep1_eq]

/-- C8 (counterexample): the code removes EVERY occurrence of
`" Township"` (`str.replace`), not only a suffix: on
`"Elm Township Heights"` the suffix rule would leave the city unchanged,
but the code yields `"Elm Heights"`. -/
theorem C8_counterexample_mid_occurrence :
    cityClean "Elm Township Heights" = .ok "Elm Heights" ∧
    cityCleanSuffixSpec "Elm Township Heights" = "Elm Township Heights" ∧
    ("Elm Heights" : String) ≠ "Elm Township Heights" :=
  ⟨rfl, rfl, by decide⟩

/-- C8 (amended): the cleaned city removes every occurrence of the
substring `" Township"` and trims whitespace (so `"Elmwood Township"` →
`"Elmwood"`, `"Township of Elm"` is unchanged — no space-prefixed
occurrence — and mid-string occurrences are removed too:
`"Elm Township Heights"` → `"Elm Heights"`); a `"City of "` prefix is then
rewritten by dropping the first 8 characters and appending `" City"`; a
city with no occurrence, already stripped, non-blank and without the
prefix is returned unchanged. -/
theorem C8_amended_clean :
    cityClean "Elmwood Township" = .ok "Elmwood" ∧
    cityClean "Township of Elm" = .ok "Township of Elm" ∧
    cityClean "Elm Township Heights" = .ok "Elm Heights" ∧
    cityClean "City of Elm" = .ok "Elm City" ∧
    (∀ city : String, pyHasSub city " Township" = false → pyStrip city = city →
      city ≠ "" → pyStartsWith city "City of" = false →
      cityClean city = .ok city) := by
  refine ⟨rfl, rfl, rfl, rfl, ?_⟩
  intro city h1 h2 h3 h4
  have h1' : pyHasSub.go " Township".data city.data = false := h1
  have hrep : pyReplace city " Township" "" = city := by
    show String.mk (pyReplaceL " Township".data "".data city.data) = city
    rw [pyReplaceL_no_occ _ _ _ h1']
  simp [cityClean, hrep, h2, h3, h4]

theorem C8_amended_clean_witness : cityClean "Elmdale" = .ok "Elmdale" :=
  C8_amended_clean.2.2.2.2 "Elmdale" rfl rfl (by decide) rfl

/-- C1 (counterexample): candidate `"downtown, springfield"` vs previous
state `"Downtown, Springfield"` (case difference only) makes `do_update`
revert, and no dwell correction applies (30 s < 60 s); yet the store
afterwards does NOT equal the pre-update deep copy: the trailing
`ATTR_LAST_UPDATED` write (sensor.py:2937) differs. -/
theorem C1_counterexample_last_updated :
    commitCondB curStoreC1 false = false ∧
    ¬ (sGet prevStoreC1 ATTR_DIRECTION_OF_TRAVEL ≠ some (.vStr "stationary") ∧
        (30 : ℚ) ≥ 60) ∧
    doUpdateFinalPhase prevStoreC1 curStoreC1 false false "2024-05-01 10:05:00"
        10 5 30 ATTR_LAST_UPDATED ≠ prevStoreC1 ATTR_LAST_UPDATED := by
  refine ⟨by decide, ?_, by decide⟩
  rintro ⟨-, h60⟩
  norm_num at h60

/-- C1 (amended): when the previous and candidate states are non-blank, it
is not the initial update and the three comparisons do not all differ, the
update is reverted and the store equals the pre-update deep copy at every
key EXCEPT that `ATTR_LAST_UPDATED` is always refreshed to the update
time, and, when ≥ 60 s have passed since the last change and direction of
travel is not already "stationary", `ATTR_DIRECTION_OF_TRAVEL` becomes
"stationary" and `ATTR_LAST_CHANGED` is refreshed as well. -/
theorem C1_amended_revert (prev cur : Store) (showTime : Bool) (nowIso : String)
    (hour minute : Nat) (dwell : ℚ)
    (hP : sBlank cur ATTR_PREVIOUS_STATE = false)
    (hN : sBlank cur ATTR_NATIVE_VALUE = false)
    (hSame : stateChangedB cur = false) :
    (∀ k, k ≠ ATTR_LAST_UPDATED → k ≠ ATTR_DIRECTION_OF_TRAVEL →
      k ≠ ATTR_LAST_CHANGED →
      doUpdateFinalPhase prev cur false showTime nowIso hour minute dwell k =
        prev k) ∧
    doUpdateFinalPhase prev cur false showTime nowIso hour minute dwell
        ATTR_LAST_UPDATED = some (.vStr nowIso) ∧
    (¬ (sGet prev ATTR_DIRECTION_OF_TRAVEL ≠ some (.vStr "stationary") ∧
        dwell ≥ 60) →
      ∀ k, k ≠ ATTR_LAST_UPDATED →
        doUpdateFinalPhase prev cur false showTime nowIso hour minute dwell k =
          prev k) ∧
    ((sGet prev ATTR_DIRECTION_OF_TRAVEL ≠ some (.vStr "stationary") ∧
        dwell ≥ 60) →
      doUpdateFinalPhase prev cur false showTime nowIso hour minute dwell
          ATTR_DIRECTION_OF_TRAVEL = some (.vStr "stationary") ∧
      doUpdateFinalPhase prev cur false showTime nowIso hour minute dwell
          ATTR_LAST_CHANGED = some (.vStr nowIso)) := by
  have hcommit : commitCondB cur false = false := by
    simp [commitCondB, hP, hN, hSame]
  have hstep : doUpdateFinalPhase prev cur false showTime nowIso hour minute dwell =
      sSet (if sGet prev ATTR_DIRECTION_OF_TRAVEL ≠ some (.vStr "stationary") ∧
            dwell ≥ 60 then
          sSet (sSet prev ATTR_DIRECTION_OF_TRAVEL (.vStr "stationary"))
            ATTR_LAST_CHANGED (.vStr nowIso)
        else prev) ATTR_LAST_UPDATED (.vStr nowIso) := by
    simp [doUpdateFinalPhase, hcommit]
  have hd1 : ATTR_DIRECTION_OF_TRAVEL ≠ ATTR_LAST_UPDATED := by decide
  have hd2 : ATTR_LAST_CHANGED ≠ ATTR_LAST_UPDATED := by decide
  have hd3 : ATTR_LAST_CHANGED ≠ ATTR_DIRECTION_OF_TRAVEL := by decide
  refine ⟨?_, ?_, ?_, ?_⟩
  · intro k h1 h2 h3
    rw [hstep]
    by_cases hd : sGet prev ATTR_DIRECTION_OF_TRAVEL ≠ some (.vStr "stationary") ∧
        dwell ≥ 60
    · simp [sSet, hd, h1, h2, h3]
    · simp [sSet, hd, h1]
  · rw [hstep]
    simp [sSet]
  · intro hnd k h1
    rw [hstep]
    simp [sSet, hnd, h1]
  · intro hd
    rw [hstep]
    constructor
    · simp [sSet, hd, hd1, Ne.symm hd3]
    · simp [sSet, hd, hd2]

theorem C1_amended_revert_witness :
    sBlank curStoreC1 ATTR_PREVIOUS_STATE = false ∧
    sBlank curStoreC1 ATTR_NATIVE_VALUE = false ∧
    stateChangedB curStoreC1 = false ∧
    doUpdateFinalPhase prevStoreC1 curStoreC1 false false "2024-05-01 10:05:00"
        10 5 120 ATTR_DIRECTION_OF_TRAVEL = some (.vStr "stationary") :=
  ⟨by decide, by decide, by decide,
   ((C1_amended_revert prevStoreC1 curStoreC1 false "2024-05-01 10:05:00" 10 5 120
      (by decide) (by decide) (by decide)).2.2.2
      ⟨by decide, by norm_num⟩).1⟩

/-! ### C2 support lemmas -/

theorem compileGo_clean (si sni1 : Int) :
    ∀ (l : List String), (∀ s ∈ l, s ≠ "" ∧ pyStrip s = s) →
    ∀ (i : Nat) (a : String),
      compileGo si sni1 i l (some a) = some (a ++ sepTail si sni1 i l) := by
  intro l
  induction l with
  | nil =>
    intro _ i a
    simp [compileGo, sepTail, strAppend_empty]
  | cons x rest ih =>
    intro hl i a
    obtain ⟨hx, hxs⟩ := hl x (List.mem_cons_self x rest)
    have hrest : ∀ s ∈ rest, s ≠ "" ∧ pyStrip s = s :=
      fun s hs => hl s (List.mem_cons_of_mem x hs)
    simp only [compileGo, if_pos hx]
    rw [hxs, ih hrest (i + 1), sepTail]
    simp only [strAppend_assoc]

theorem compileCore_cons (si sni : Int) (x : String) (l : List String)
    (hx : x ≠ "") (hxs : pyStrip x = x)
    (hl : ∀ s ∈ l, s ≠ "" ∧ pyStrip s = s) :
    compileCore si sni (x :: l) = some (x ++ sepTail si (sni + 1) 1 l) := by
  rw [compileCore]
  simp only [compileGo, if_pos hx]
  rw [hxs]
  exact compileGo_clean si (sni + 1) l hl 1 x

theorem sepTail_comma (si sni1 : Int) :
    ∀ (l : List String) (i : Nat),
      (∀ j : Nat, i ≤ j → ¬((j : Int) = si ∧ (j : Int) = sni1)) →
      sepTail si sni1 i l = tailJoin l := by
  intro l
  induction l with
  | nil => intro i _; rfl
  | cons x rest ih =>
    intro i h
    rw [sepTail, tailJoin, if_neg (h i le_rfl), ih (i + 1) (fun j hj => h j (by omega))]

theorem joinCommaSpace_cons (x : String) (l : List String) :
    joinCommaSpace (x :: l) = x ++ tailJoin l := by
  induction l generalizing x with
  | nil => simp only [joinCommaSpace, tailJoin]; rw [strAppend_empty]
  | cons y rest ih =>
    rw [joinCommaSpace, ih y, tailJoin]
    simp only [strAppend_assoc]

theorem sepTail_merge (si sni1 : Int) (x y : String) (B : List String) :
    ∀ (C : List String) (i : Nat), si = sni1 → si = (i : Int) + C.length + 1 →
      sepTail si sni1 i (C ++ x :: y :: B) = tailJoin (C ++ (x ++ " " ++ y) :: B) := by
  intro C
  induction C with
  | nil =>
    intro i he hsi
    simp only [List.length_nil, Int.natCast_zero, add_zero] at hsi
    simp only [List.nil_append]
    rw [sepTail, if_neg (by rintro ⟨h1, -⟩; omega)]
    rw [sepTail, if_pos (by constructor <;> (push_cast; omega))]
    rw [sepTail_comma si sni1 B (i + 2)
      (by intro j hj; rintro ⟨h1, -⟩; omega)]
    rw [tailJoin]
    simp only [strAppend_assoc]
  | cons a C' ih =>
    intro i he hsi
    simp only [List.length_cons] at hsi
    simp only [List.cons_append]
    rw [sepTail, tailJoin, if_neg (by rintro ⟨h1, -⟩; push_cast at hsi; omega)]
    rw [ih (i + 1) he (by push_cast at hsi ⊢; omega)]

/-- C2: the resolved items compile joined with `", "`, except that the
item at the street index gets a single-space separator exactly when the
street index equals the street-number index plus one — i.e. the
street-number item immediately followed by the street item join with one
space; with no such adjacency everything joins with comma+space. -/
theorem C2_join_rule :
    (∀ (A B : List String) (x y : String),
      (∀ s ∈ A, s ≠ "" ∧ pyStrip s = s) → x ≠ "" → pyStrip x = x →
      y ≠ "" → pyStrip y = y → (∀ s ∈ B, s ≠ "" ∧ pyStrip s = s) →
      compileCore ((A.length : Int) + 1) (A.length : Int) (A ++ x :: y :: B) =
        some (joinCommaSpace (A ++ (x ++ " " ++ y) :: B))) ∧
    (∀ (l : List String) (si sni : Int),
      (∀ s ∈ l, s ≠ "" ∧ pyStrip s = s) → si ≠ sni + 1 → l ≠ [] →
      compileCore si sni l = some (joinCommaSpace l)) ∧
    (∀ (l : List String), (∀ s ∈ l, s ≠ "" ∧ pyStrip s = s) → l ≠ [] →
      compileCore 0 (-1) l = some (joinCommaSpace l)) := by
  refine ⟨?_, ?_, ?_⟩
  · intro A B x y hA hx hxs hy hys hB
    cases A with
    | nil =>
      simp only [List.nil_append, List.length_nil, Int.natCast_zero, zero_add]
      rw [compileCore_cons 1 0 x (y :: B) hx hxs (by
        intro s hs
        rcases List.mem_cons.mp hs with h | h
        · exact h ▸ ⟨hy, hys⟩
        · exact hB s h)]
      rw [sepTail, if_pos (by constructor <;> norm_num)]
      rw [sepTail_comma 1 (0 + 1) B 2 (by intro j hj; rintro ⟨h1, -⟩; omega)]
      rw [joinCommaSpace_cons]
      simp only [strAppend_assoc]
    | cons a A' =>
      obtain ⟨ha, has⟩ := hA a (List.mem_cons_self a A')
      have hA' : ∀ s ∈ A', s ≠ "" ∧ pyStrip s = s :=
        fun s hs => hA s (List.mem_cons_of_mem a hs)
      simp only [List.cons_append]
      rw [compileCore_cons _ _ a (A' ++ x :: y :: B) ha has (by
        intro s hs
        rcases List.mem_append.mp hs with h | h
        · exact hA' s h
        · rcases List.mem_cons.mp h with h' | h'
          · exact h' ▸ ⟨hx, hxs⟩
          · rcases List.mem_cons.mp h' with h'' | h''
            · exact h'' ▸ ⟨hy, hys⟩
            · exact hB s h'')]
      rw [sepTail_merge _ _ x y B A' 1 rfl
        (by simp only [List.length_cons]; push_cast; omega)]
      rw [joinCommaSpace_cons]
  · intro l si sni hl hne hnil
    cases l with
    | nil => exact absurd rfl hnil
    | cons x rest =>
      obtain ⟨hx, hxs⟩ := hl x (List.mem_cons_self x rest)
      have hrest : ∀ s ∈ rest, s ≠ "" ∧ pyStrip s = s :=
        fun s hs => hl s (List.mem_cons_of_mem x hs)
      rw [compileCore_cons si sni x rest hx hxs hrest]
      rw [sepTail_comma si (sni + 1) rest 1
        (by intro j hj; rintro ⟨h1, h2⟩; exact hne (h1.symm.trans h2))]
      rw [joinCommaSpace_cons]
  · intro l hl hnil
    cases l with
    | nil => exact absurd rfl hnil
    | cons x rest =>
      obtain ⟨hx, hxs⟩ := hl x (List.mem_cons_self x rest)
      have hrest : ∀ s ∈ rest, s ≠ "" ∧ pyStrip s = s :=
        fun s hs => hl s (List.mem_cons_of_mem x hs)
      rw [compileCore_cons 0 (-1) x rest hx hxs hrest]
      rw [sepTail_comma 0 (-1 + 1) rest 1
        (by intro j hj; rintro ⟨h1, -⟩; omega)]
      rw [joinCommaSpace_cons]

theorem C2_join_rule_witness :
    compileCore 1 0 ["221B", "Baker Street"] = some "221B Baker Street" := by
  have h := C2_join_rule.1 [] [] "221B" "Baker Street"
    (by intro s hs; cases hs) (by decide) (by decide) (by decide) (by decide)
    (by intro s hs; cases hs)
  simpa using h

/-- C10: on every commit with a non-blank candidate state, the published
state string never exceeds 255 characters: with the show-time flag the
candidate is cut to 241 characters before the 14-character
`" (since HH:MM)"` suffix, otherwise it is cut to 255. -/
theorem C10_native_value_capped (prev cur : Store) (initial showTime : Bool)
    (nowIso : String) (hour minute : Nat) (dwell : ℚ) (v : String)
    (hC : commitCondB cur initial = true)
    (hNV : sGetStr cur ATTR_NATIVE_VALUE = some v)
    (hh : hour < 24) (hm : minute < 60) :
    ∃ w : String,
      doUpdateFinalPhase prev cur initial showTime nowIso hour minute dwell
          ATTR_NATIVE_VALUE = some (.vStr w) ∧
        w.length ≤ 255 := by
  have hnb : sBlank cur ATTR_NATIVE_VALUE = false := by
    by_cases hb : sBlank cur ATTR_NATIVE_VALUE = true
    · rw [sGetStr, sGet, if_pos hb] at hNV
      exact absurd hNV (by simp)
    · simpa using hb
  have hnb2 : !(sBlank (sCleanup cur) ATTR_NATIVE_VALUE) = true := by
    rw [sBlank_sCleanup, hnb]
    rfl
  have hgs : sGetStr (sCleanup cur) ATTR_NATIVE_VALUE = some v := by
    rw [sGetStr_sCleanup]
    exact hNV
  have hne1 : ATTR_NATIVE_VALUE ≠ ATTR_LAST_UPDATED := by decide
  have hne2 : ATTR_NATIVE_VALUE ≠ ATTR_INITIAL_UPDATE := by decide
  refine ⟨if showTime then
      pySliceTo v (255 - 14) ++ " (since " ++ pyFmtTime hour minute ++ ")"
    else pySliceTo v 255, ?_, ?_⟩
  · have hnbc : sBlank (sCleanup cur) ATTR_NATIVE_VALUE = false := by
      rw [sBlank_sCleanup]
      exact hnb
    simp only [doUpdateFinalPhase, hC, if_true, hgs]
    simp [sSet, hne1, hne2, hnbc]
  · by_cases hs : showTime = true
    · rw [if_pos hs, strAppend_length, strAppend_length, strAppend_length]
      have h1 := pySliceTo_length_le v (255 - 14)
      have h2 : (" (since " : String).length = 8 := by decide
      have h3 := pyFmtTime_length hour hh minute hm
      have h4 : (")" : String).length = 1 := by decide
      omega
    · rw [if_neg hs]
      exact pySliceTo_length_le v 255

theorem C10_native_value_capped_witness :
    commitCondB curStoreC10 true = true ∧
    ∃ w : String,
      doUpdateFinalPhase prevStoreC1 curStoreC10 true true "2024-05-01 10:05:00"
          10 5 30 ATTR_NATIVE_VALUE = some (.vStr w) ∧
        w.length ≤ 255 :=
  ⟨by decide,
   C10_native_value_capped prevStoreC1 curStoreC10 true true "2024-05-01 10:05:00"
     10 5 30 (String.mk (List.replicate 300 'a')) (by decide) (by decide)
     (by norm_num) (by norm_num)⟩

end Places
